import Mathlib

set_option linter.unusedVariables false

/-!
Shallow embedding of the multi-backend translation comparison server
(`lib/translation_server.py` and `lib/translation_server_backup.py`).

Effectful provider/model invocations (network calls, model inference,
`time.time()` measurements) are opaque to the orchestrator; they are modelled
by an explicit outcome parameter (`CallOutcome`) and a latency parameter,
passed to each adapter.  Everything the Python code computes around those
opaque calls (language-table lookups, error capture, result assembly, metric
computation, routing, validation) is translated directly.
-/

namespace LiveAudio

/-- The uniform per-backend result dict produced by the adapters of
`translation_server.py`: keys `translation`, `latency`, `model`, `status`,
`error`.  Latencies (Python floats from `time.time()` differences) are
modelled as rationals. -/
structure TranslationResult where
  translation : Option String
  latency : ℚ
  model : String
  status : String
  error : Option String
deriving DecidableEq

/-- Outcome of one opaque underlying provider invocation (model load +
generate + decode, or network call): either the decoded output string, or a
Python exception whose `str(e)` is `msg`. -/
inductive CallOutcome where
  | ok (text : String)
  | exn (msg : String)
deriving DecidableEq

/-- An adapter call paired with instrumentation: `invoked` is true exactly
when control reached the underlying model/provider invocation (the
`generate`/`translate` call), false when the adapter returned before it. -/
structure AdapterCall where
  result : TranslationResult
  invoked : Bool
deriving DecidableEq

/-- Python's `str.lower()` (ASCII case folding, per-character), executable by
structural recursion so concrete instances evaluate inside proofs. -/
def pyLower (s : String) : String := ⟨s.data.map Char.toLower⟩

/-- Python's `str.strip()`: drop whitespace from both ends. -/
def pyStrip (s : String) : String :=
  ⟨((s.data.dropWhile Char.isWhitespace).reverse.dropWhile Char.isWhitespace).reverse⟩

/-- `self.marian_lang_codes` from `TranslationService.__init__`. -/
def marian_lang_codes : List (String × String) :=
  [("chinese", "zh"), ("tamil", "ta"), ("french", "fr"), ("spanish", "es"),
   ("german", "de"), ("japanese", "ja"), ("korean", "ko")]

/-- `self.m2m100_lang_codes` from `TranslationService.__init__`. -/
def m2m100_lang_codes : List (String × String) :=
  [("chinese", "zh"), ("tamil", "ta"), ("french", "fr"), ("spanish", "es"),
   ("german", "de"), ("japanese", "ja"), ("korean", "ko"), ("english", "en")]

/-- `self.madlad_lang_codes` from `TranslationService.__init__`. -/
def madlad_lang_codes : List (String × String) :=
  [("chinese", "zh"), ("tamil", "ta"), ("french", "fr"), ("spanish", "es"),
   ("german", "de"), ("japanese", "ja"), ("korean", "ko"), ("english", "en")]

/-- The `marian_models` dict inside `get_marian_model_name`. -/
def marian_models_table : List (String × String) :=
  [("chinese", "Helsinki-NLP/opus-mt-en-zh"), ("tamil", "Helsinki-NLP/opus-mt-en-ta"),
   ("french", "Helsinki-NLP/opus-mt-en-fr"), ("spanish", "Helsinki-NLP/opus-mt-en-es"),
   ("german", "Helsinki-NLP/opus-mt-en-de"), ("japanese", "Helsinki-NLP/opus-mt-en-jap"),
   ("korean", "Helsinki-NLP/opus-mt-en-ko")]

/-- `get_marian_model_name`: table lookup on the lower-cased language with a
default fallback model for unmapped languages. -/
def get_marian_model_name (target_language : String) : String :=
  (marian_models_table.lookup (pyLower target_language)).getD "Helsinki-NLP/opus-mt-en-mul"

/-- The `lang_codes` dict inside `translate_with_google`; the Google adapter
passes `lang_codes.get(target_language.lower(), target_language)` as the
`dest` parameter of the opaque provider call. -/
def google_lang_codes : List (String × String) :=
  [("chinese", "zh"), ("tamil", "ta"), ("french", "fr"), ("spanish", "es"),
   ("german", "de"), ("japanese", "ja"), ("korean", "ko")]

/-- The `dest` argument computed by `translate_with_google`. -/
def google_target_code (target_language : String) : String :=
  (google_lang_codes.lookup (pyLower target_language)).getD target_language

/-- The `language_map` of `get_model_name` in `translation_server_backup.py`. -/
def backup_language_map : List (String × String) :=
  [("french", "Helsinki-NLP/opus-mt-en-fr"), ("spanish", "Helsinki-NLP/opus-mt-en-es"),
   ("german", "Helsinki-NLP/opus-mt-en-de"), ("italian", "Helsinki-NLP/opus-mt-en-it"),
   ("japanese", "Helsinki-NLP/opus-mt-en-jap"), ("chinese", "Helsinki-NLP/opus-mt-en-zh"),
   ("portuguese", "Helsinki-NLP/opus-mt-en-roa"), ("dutch", "Helsinki-NLP/opus-mt-en-nl"),
   ("korean", "Helsinki-NLP/opus-mt-en-ko"), ("thai", "Helsinki-NLP/opus-mt-en-th"),
   ("vietnamese", "Helsinki-NLP/opus-mt-en-vi"), ("indonesian", "Helsinki-NLP/opus-mt-en-id"),
   ("tamil", "Helsinki-NLP/opus-mt-en-ta")]

/-- `get_model_name` of `translation_server_backup.py`: lower-case and strip
the language, look it up, and fall back to the French model when unmapped. -/
def get_model_name (target_language : String) : String :=
  (backup_language_map.lookup (pyStrip (pyLower target_language))).getD
    "Helsinki-NLP/opus-mt-en-fr"

/-- `TranslationService.translate_with_marian`: the whole body (model load for
the language, tokenize, generate, decode) sits in one try/except; any
exception is captured into a failed result.  The language never blocks the
call, because `get_marian_model_name` falls back to a default model. -/
def translate_with_marian (env : CallOutcome) (lat : ℚ)
    (text target_language : String) : AdapterCall :=
  match env with
  | .ok t => ⟨⟨some t, lat, "MarianMT", "success", none⟩, true⟩
  | .exn e => ⟨⟨none, lat, "MarianMT", "failed", some e⟩, true⟩

/-- `TranslationService.translate_with_m2m100`: returns early (no model
invocation) when the model failed to preload or when the lower-cased target
language is not in `m2m100_lang_codes`; otherwise runs the opaque generate
call, capturing exceptions. -/
def translate_with_m2m100 (loaded : Bool) (env : CallOutcome) (lat : ℚ)
    (text target_language : String) : AdapterCall :=
  if !loaded then
    ⟨⟨none, lat, "M2M-100", "failed",
      some "M2M-100 model not available (failed to load at startup)"⟩, false⟩
  else
    match m2m100_lang_codes.lookup (pyLower target_language) with
    | none =>
        ⟨⟨none, lat, "M2M-100", "failed",
          some ("Unsupported language: " ++ target_language)⟩, false⟩
    | some _tgt =>
        match env with
        | .ok t => ⟨⟨some t, lat, "M2M-100", "success", none⟩, true⟩
        | .exn e => ⟨⟨none, lat, "M2M-100", "failed", some e⟩, true⟩

/-- `TranslationService.translate_with_madlad`: like M2M-100, with the output
cleanup that strips a leading `<2xx> text` or `<2xx>` prefix from the decoded
string. -/
def translate_with_madlad (loaded : Bool) (env : CallOutcome) (lat : ℚ)
    (text target_language : String) : AdapterCall :=
  if !loaded then
    ⟨⟨none, lat, "MADLAD-400", "failed",
      some "MADLAD-400 model not available (failed to load at startup)"⟩, false⟩
  else
    match madlad_lang_codes.lookup (pyLower target_language) with
    | none =>
        ⟨⟨none, lat, "MADLAD-400", "failed",
          some ("Unsupported language: " ++ target_language)⟩, false⟩
    | some tgt =>
        match env with
        | .ok t =>
            let input_text := "<2" ++ tgt ++ "> " ++ text
            let tag := "<2" ++ tgt ++ ">"
            let translation :=
              if t.startsWith input_text then pyStrip (t.drop input_text.length)
              else if t.startsWith tag then pyStrip (t.drop tag.length)
              else t
            ⟨⟨some translation, lat, "MADLAD-400", "success", none⟩, true⟩
        | .exn e => ⟨⟨none, lat, "MADLAD-400", "failed", some e⟩, true⟩

/-- `TranslationService.translate_with_google`: lazy client init plus the
opaque provider call sit in one try/except; exceptions are captured into a
failed result. -/
def translate_with_google (env : CallOutcome) (lat : ℚ)
    (text target_language : String) : AdapterCall :=
  match env with
  | .ok t => ⟨⟨some t, lat, "Google Translate", "success", none⟩, true⟩
  | .exn e => ⟨⟨none, lat, "Google Translate", "failed", some e⟩, true⟩

/-- Module-level `translate_with_chatgpt` of `translation_server.py`: on
success it returns the bare stripped translation string (not a result dict);
on any exception it prints and RE-RAISES, so the exception escapes the
function (modelled by `Except.error`). -/
def translate_with_chatgpt (env : CallOutcome)
    (text target_language : String) : Except String String :=
  match env with
  | .ok t => .ok (pyStrip t)
  | .exn e => .error e

/-- Python's `round` to an integer: round half to even (banker's rounding),
as used by `round(x, 3)` throughout the backup server. -/
def round_half_even (q : ℚ) : ℤ :=
  if Int.fract q < 1/2 then ⌊q⌋
  else if 1/2 < Int.fract q then ⌊q⌋ + 1
  else if ⌊q⌋ % 2 = 0 then ⌊q⌋ else ⌊q⌋ + 1

/-- Python's `round(x, 3)`. -/
def round3 (q : ℚ) : ℚ :=
  (round_half_even (q * 1000) : ℚ) / 1000

/-- Pairwise metric dict of the backup server: `are_same` after
lower-case + strip normalization, signed `length_diff`, rounded signed
`speed_diff`. -/
structure PairMetrics where
  are_same : Bool
  length_diff : ℤ
  speed_diff : ℚ
deriving DecidableEq

/-- The pairwise comparison computed for `{model1}_vs_{model2}` pairs inside
`compare_three_models` of `translation_server_backup.py` (lines 538-542), and
identically (with marian as model1, google as model2) by the `comparison`
block of its `compare_translations` (lines 427-431):
`are_same = trans1.lower().strip() == trans2.lower().strip()`,
`length_diff = len(trans2) - len(trans1)`,
`speed_diff = round(lat2 - lat1, 3)`. -/
def pairwise_comparison (trans1 trans2 : String) (lat1 lat2 : ℚ) : PairMetrics :=
  ⟨pyStrip (pyLower trans1) == pyStrip (pyLower trans2),
   (trans2.length : ℤ) - (trans1.length : ℤ),
   round3 (lat2 - lat1)⟩

/-- The comparison dict of the main server's `/compare` endpoint
(`compare_two_models`, lines 946-960): `are_same` by raw equality of the two
(possibly `None`) translations, `length_diff` as an ABSOLUTE difference of
lengths, unrounded `speed_diff = marian.latency - google.latency`, and a note
string naming MarianMT faster exactly when `speed_diff < 0` (modelled by the
boolean `note_marian_faster`). -/
structure TwoComparison where
  are_same : Bool
  length_diff : ℕ
  speed_diff : ℚ
  note_marian_faster : Bool
deriving DecidableEq

/-- Outcome of the main server's `/compare` endpoint: a 200 body with both
results and the comparison dict, a 400 validation error, or a 500 error body
(the route's catch-all `except`). -/
inductive CompareTwoResponse where
  | ok (marian google : TranslationResult) (comparison : TwoComparison)
  | validationError (msg : String)
  | serverError (msg : String)
deriving DecidableEq

/-- `compare_two_models` (`/compare` of `translation_server.py`): runs both
adapters, then computes the metrics UNCONDITIONALLY.  Computing
`len(marian_result.get('translation', ''))` raises `TypeError` when the
stored translation is `None` (the key is always present, so the default is
never used); the route's catch-all converts that into a 500 error body. -/
def compare_two_models (envM envG : CallOutcome) (latM latG : ℚ)
    (text target_language : String) : CompareTwoResponse :=
  if text = "" then .validationError "No text provided"
  else
    let m := (translate_with_marian envM latM text target_language).result
    let g := (translate_with_google envG latG text target_language).result
    match m.translation, g.translation with
    | some mt, some gt =>
        let speed_diff := m.latency - g.latency
        .ok m g
          ⟨m.translation == g.translation,
           ((mt.length : ℤ) - (gt.length : ℤ)).natAbs,
           speed_diff,
           decide (speed_diff < 0)⟩
    | _, _ => .serverError "object of type NoneType has no len()"

/-- Per-model entry assembled by the backup server's `/compare`
(`compare_translations`): successful entries carry the translation and the
rounded latency, failed entries carry `None`, latency 0 and the captured
error string. -/
structure BackupEntry where
  translation : Option String
  latency : ℚ
  model : String
  status : String
  error : Option String
deriving DecidableEq

/-- The `comparison` field of the backup `/compare` response: numeric metrics
or the synthetic note string. -/
inductive ComparisonField where
  | metrics (m : PairMetrics)
  | note (s : String)
deriving DecidableEq

/-- Outcome of the backup server's `/compare`. -/
inductive BackupCompareResponse where
  | ok (marian google : BackupEntry) (comparison : ComparisonField)
  | missingFields (msg : String)
  | serverError (msg : String)
deriving DecidableEq

/-- Python truthiness of an optional string: `None` and `""` are falsy. -/
def truthyStr : Option String → Bool
  | some s => s != ""
  | none => false

/-- `compare_translations` (`/compare` of `translation_server_backup.py`):
each backend runs in its own try/except (the backup adapters re-raise, so the
endpoint catches); `envM`/`envG` are the two opaque call outcomes and
`latM`/`latG` the elapsed times measured at the call sites.  If BOTH
translations are `None` the endpoint returns a 500 error; entry building and
the comparison gate use Python truthiness (so an empty-string translation
counts as failed). -/
def compare_translations (envM envG : CallOutcome) (latM latG : ℚ)
    (text target_language : String) : BackupCompareResponse :=
  let marian_translation : Option String :=
    match envM with | .ok t => some t | .exn _ => none
  let marian_error : Option String :=
    match envM with | .ok _ => none | .exn e => some e
  let marian_time : ℚ := match envM with | .ok _ => latM | .exn _ => 0
  let google_translation : Option String :=
    match envG with | .ok t => some t | .exn _ => none
  let google_error : Option String :=
    match envG with | .ok _ => none | .exn e => some e
  let google_time : ℚ := match envG with | .ok _ => latG | .exn _ => 0
  match marian_translation, google_translation with
  | none, none =>
      .serverError ("Both translation services failed. MarianMT: "
        ++ marian_error.getD "None" ++ ", Google: " ++ google_error.getD "None")
  | _, _ =>
    let mEntry : BackupEntry :=
      if truthyStr marian_translation then
        ⟨marian_translation, round3 marian_time, "MarianMT", "success", none⟩
      else ⟨none, 0, "MarianMT", "failed", marian_error⟩
    let gEntry : BackupEntry :=
      if truthyStr google_translation then
        ⟨google_translation, round3 google_time, "Google Translate", "success", none⟩
      else ⟨none, 0, "Google Translate", "failed", google_error⟩
    let comparison : ComparisonField :=
      match marian_translation, google_translation with
      | some mt, some gt =>
          if mt != "" && gt != "" then
            .metrics (pairwise_comparison mt gt marian_time google_time)
          else .note "Comparison unavailable - one or both models failed"
      | _, _ => .note "Comparison unavailable - one or both models failed"
    .ok mEntry gEntry comparison

/-- The backends registered in the `model_functions` dict of the main
server's `/compare-custom` and in the `/translate` routing. -/
inductive Backend where
  | marian
  | m2m100
  | madlad
  | google
deriving DecidableEq

/-- One request's worth of opaque-call outcomes and measured latencies, one
per backend, plus the preload flags of the two models that can be absent
(`m2m100_model is None` / `madlad_model is None`). -/
structure ServerEnv where
  marian : CallOutcome
  m2m100 : CallOutcome
  madlad : CallOutcome
  google : CallOutcome
  m2m100Loaded : Bool
  madladLoaded : Bool
  marianLat : ℚ
  m2m100Lat : ℚ
  madladLat : ℚ
  googleLat : ℚ
deriving DecidableEq

/-- Keys of the `model_functions` dict in `compare_custom_models`
(`translation_server.py`, lines 1045-1050). -/
def model_function_names : List String := ["marian", "m2m100", "madlad", "google"]

/-- Dispatch of `model_functions[model]`: `some` adapter call for a
registered name, `none` for a name that is not a key of the dict. -/
def run_model_function (env : ServerEnv) (name text target_language : String) :
    Option AdapterCall :=
  if name = "marian" then
    some (translate_with_marian env.marian env.marianLat text target_language)
  else if name = "m2m100" then
    some (translate_with_m2m100 env.m2m100Loaded env.m2m100 env.m2m100Lat text target_language)
  else if name = "madlad" then
    some (translate_with_madlad env.madladLoaded env.madlad env.madladLat text target_language)
  else if name = "google" then
    some (translate_with_google env.google env.googleLat text target_language)
  else none

/-- One step of the two fused loops of `compare_custom_models`: requested
names that are keys of `model_functions` get submitted and their result
stored under their name; other names are SKIPPED (no entry at all).  The
`futures` dict keys keep first-insertion order; re-submitting a duplicate
name overwrites the future with one computing the identical result, so
keeping the first entry is observationally the same. -/
def collect_step (env : ServerEnv) (text target_language : String)
    (res : List (String × TranslationResult)) (m : String) :
    List (String × TranslationResult) :=
  match run_model_function env m text target_language with
  | some call =>
      if res.any (fun p => p.1 == m) then res else res ++ [(m, call.result)]
  | none => res

/-- The `results` dict assembled by `compare_custom_models`, as an
association list in key-insertion order. -/
def custom_results (env : ServerEnv) (text target_language : String)
    (models : List String) : List (String × TranslationResult) :=
  models.foldl (collect_step env text target_language) []

/-- The sequence of adapter invocations `compare_custom_models` performs: one
`executor.submit` per requested name that is a key of `model_functions`
(duplicates submit again). -/
def custom_invoked (models : List String) : List String :=
  models.filter (fun m => model_function_names.contains m)

/-- The 200 body of `/compare-custom`. -/
structure CustomResponse where
  source_text : String
  target_language : String
  selected_models : List String
  results : List (String × TranslationResult)
  successful_models : List String
  success_rate : ℚ
deriving DecidableEq

/-- Outcome of `/compare-custom`, instrumented with the list of adapter
invocations actually performed (empty on the validation paths, which return
before any `executor.submit`). -/
inductive CustomOutcome where
  | ok (r : CustomResponse) (invoked : List String)
  | validationError (msg : String) (invoked : List String)
deriving DecidableEq

/-- `compare_custom_models` (`/compare-custom` of `translation_server.py`):
validates text and model list (400, zero invocations), then runs each
REGISTERED requested backend and reports
`success_rate = len(successful_models) / len(models)`. -/
def compare_custom_models (env : ServerEnv) (text target_language : String)
    (models : List String) : CustomOutcome :=
  if text = "" then .validationError "No text provided" []
  else if models = [] then .validationError "No models specified" []
  else
    let results := custom_results env text target_language models
    let successful_models :=
      (results.filter (fun p => p.2.status == "success")).map Prod.fst
    .ok ⟨text, target_language, models, results, successful_models,
         (successful_models.length : ℚ) / (models.length : ℚ)⟩
       (custom_invoked models)

/-- Outcome of the main server's `/translate` endpoint, instrumented with the
backend adapter that was called (none on the validation path). -/
inductive TranslateOutcome where
  | ok (r : TranslationResult) (called : Option Backend)
  | backendFailed (r : TranslationResult) (called : Option Backend)
  | validationError (r : TranslationResult)
deriving DecidableEq

/-- `translate` (`/translate` of `translation_server.py`): empty text gives a
400 failed body with no backend call; otherwise `model == 'google'` routes to
the Google adapter and EVERY other model string routes to the MarianMT
adapter; the adapter's result is returned with 200 on success, 500 on
failure. -/
def translate_endpoint (env : ServerEnv) (text target_language model : String) :
    TranslateOutcome :=
  if text = "" then
    .validationError ⟨none, 0, model, "failed", some "No text provided"⟩
  else
    let result :=
      if model = "google" then
        (translate_with_google env.google env.googleLat text target_language).result
      else
        (translate_with_marian env.marian env.marianLat text target_language).result
    let called : Option Backend :=
      if model = "google" then some .google else some .marian
    if result.status = "success" then .ok result called
    else .backendFailed result called

/-- Outcome of the main server's `/translate-chatgpt` endpoint. -/
inductive ChatgptOutcome where
  | ok (r : TranslationResult)
  | validationError (r : TranslationResult)
  | serverError (r : TranslationResult)
deriving DecidableEq

/-- `translate_chatgpt` (`/translate-chatgpt` of `translation_server.py`):
the endpoint's try/except catches the exception that
`translate_with_chatgpt` re-raises and converts it into a 500 failed body. -/
def translate_chatgpt_endpoint (env : CallOutcome) (lat : ℚ)
    (text target_language : String) : ChatgptOutcome :=
  if text = "" then
    .validationError ⟨none, 0, "ChatGPT", "failed", some "No text provided"⟩
  else
    match translate_with_chatgpt env text target_language with
    | .ok t => .ok ⟨some t, lat, "ChatGPT", "success", none⟩
    | .error e => .serverError ⟨none, 0, "ChatGPT", "failed", some e⟩

/-! Projections used to state properties of whole-endpoint outcomes. -/

/-- Results mapping of a `/compare-custom` outcome (empty on errors). -/
def outcome_results : CustomOutcome → List (String × TranslationResult)
  | .ok r _ => r.results
  | .validationError _ _ => []

/-- Success rate of a `/compare-custom` outcome (0 on errors). -/
def outcome_success_rate : CustomOutcome → ℚ
  | .ok r _ => r.success_rate
  | .validationError _ _ => 0

/-- Number of entries with `status == "success"` in a results mapping. -/
def successCount (rs : List (String × TranslationResult)) : ℕ :=
  (rs.filter (fun p => p.2.status == "success")).length

/-- `are_same` of a `/compare` (main server) outcome. -/
def two_are_same : CompareTwoResponse → Option Bool
  | .ok _ _ c => some c.are_same
  | _ => none

/-- `length_diff` of a `/compare` (main server) outcome. -/
def two_length_diff : CompareTwoResponse → Option ℕ
  | .ok _ _ c => some c.length_diff
  | _ => none

/-- `speed_diff` of a `/compare` (main server) outcome. -/
def two_speed_diff : CompareTwoResponse → Option ℚ
  | .ok _ _ c => some c.speed_diff
  | _ => none

/-- Whether a backup `/compare` outcome is the 500 error path. -/
def backup_is_server_error : BackupCompareResponse → Bool
  | .serverError _ => true
  | _ => false

/-- Result body of a `/translate` outcome. -/
def endpoint_result : TranslateOutcome → TranslationResult
  | .ok r _ => r
  | .backendFailed r _ => r
  | .validationError r => r

/-- Backend adapter called by a `/translate` outcome. -/
def endpoint_called : TranslateOutcome → Option Backend
  | .ok _ c => c
  | .backendFailed _ c => c
  | .validationError _ => none

/-- The status/translation pairing invariant of the data model. -/
def statusTransInv (r : TranslationResult) : Prop :=
  r.status = "success" ↔ r.translation ≠ none

/-- A result in which a raised failure was captured: either a clean success,
or a failure whose error field is set. -/
def capturedFailure (r : TranslationResult) : Prop :=
  (r.status = "success" ∧ r.error = none) ∨ (r.status = "failed" ∧ r.error.isSome)

/-- Fixture environment for concrete evaluations: every backend healthy and
deterministic, unit latencies. -/
def env0 : ServerEnv :=
  ⟨.ok "Bonjour", .ok "Bonjour", .ok "Bonjour", .ok "Bonjour", true, true, 1, 1, 1, 1⟩

/-! Helper lemmas. -/

/-- Banker's rounding is an odd function, because ties round towards the even
neighbor symmetrically. -/
theorem round_half_even_neg (q : ℚ) : round_half_even (-q) = - round_half_even q := by
  have hnn := Int.fract_nonneg q
  by_cases h0 : Int.fract q = 0
  · have hnf : Int.fract (-q) = 0 := Int.fract_neg_eq_zero.mpr h0
    have hq : ((⌊q⌋ : ℤ) : ℚ) = q := by
      have h := Int.self_sub_fract q
      rw [h0, sub_zero] at h
      exact h.symm
    have hfl : ⌊-q⌋ = -⌊q⌋ := by
      conv_lhs => rw [← hq]
      rw [← Int.cast_neg, Int.floor_intCast]
    unfold round_half_even
    rw [h0, hnf, hfl]
    norm_num
  · have hpos : 0 < Int.fract q := lt_of_le_of_ne hnn (Ne.symm h0)
    have hlt1 := Int.fract_lt_one q
    have hf1 : Int.fract (-q) = 1 - Int.fract q := Int.fract_neg h0
    have hfl : ⌊-q⌋ = -⌊q⌋ - 1 := by
      have h1 : ((⌊-q⌋ : ℤ) : ℚ) = -q - Int.fract (-q) := by
        rw [Int.self_sub_fract]
      have h2 : ((⌊q⌋ : ℤ) : ℚ) = q - Int.fract q := by
        rw [Int.self_sub_fract]
      have hcast : ((⌊-q⌋ : ℤ) : ℚ) = ((-⌊q⌋ - 1 : ℤ) : ℚ) := by
        push_cast
        rw [h1, hf1]
        push_cast at h2
        linarith
      exact_mod_cast hcast
    unfold round_half_even
    rw [hf1, hfl]
    rcases lt_trichotomy (Int.fract q) (1/2) with hc | hc | hc <;>
      split_ifs <;> first | omega | linarith

/-- `round(x, 3)` is an odd function. -/
theorem round3_neg (q : ℚ) : round3 (-q) = - round3 q := by
  unfold round3
  rw [show -q * 1000 = -(q * 1000) by ring, round_half_even_neg]
  push_cast
  ring

/-- Dispatch through the `model_functions` dict succeeds exactly for its four
keys. -/
theorem run_model_function_isSome (env : ServerEnv) (m text tl : String) :
    (run_model_function env m text tl).isSome = true ↔ m ∈ model_function_names := by
  unfold run_model_function model_function_names
  split_ifs with h1 h2 h3 h4 <;> simp_all

/-- The dict-membership test used by `collect_step` agrees with key
membership. -/
theorem any_key_eq (acc : List (String × TranslationResult)) (a : String) :
    acc.any (fun p => p.1 == a) = true ↔ a ∈ acc.map Prod.fst := by
  simp [List.any_eq_true, List.mem_map, beq_iff_eq]

/-- One `collect_step` either appends a fresh registered key or leaves the
keys unchanged. -/
theorem collect_step_keys (env : ServerEnv) (text tl : String)
    (acc : List (String × TranslationResult)) (a : String) :
    (collect_step env text tl acc a).map Prod.fst =
      if a ∈ model_function_names ∧ a ∉ acc.map Prod.fst
      then acc.map Prod.fst ++ [a] else acc.map Prod.fst := by
  unfold collect_step
  cases hr : run_model_function env a text tl with
  | none =>
      have hnotin : a ∉ model_function_names := by
        rw [← run_model_function_isSome env a text tl, hr]
        simp
      simp [hnotin]
  | some call =>
      have hin : a ∈ model_function_names := by
        rw [← run_model_function_isSome env a text tl, hr]
        simp
      by_cases hmem : a ∈ acc.map Prod.fst
      · have hany : acc.any (fun p => p.1 == a) = true := (any_key_eq acc a).mpr hmem
        simp [hany, hin, hmem]
      · have hany : acc.any (fun p => p.1 == a) = false := by
          rw [← Bool.not_eq_true, any_key_eq]
          exact hmem
        simp [hany, hin, hmem]

/-- Key membership of the results fold: exactly the accumulator keys plus the
requested names that are registered. -/
theorem collect_foldl_keys_mem (env : ServerEnv) (text tl : String) (models : List String) :
    ∀ (acc : List (String × TranslationResult)) (m : String),
      m ∈ (models.foldl (collect_step env text tl) acc).map Prod.fst ↔
        m ∈ acc.map Prod.fst ∨ (m ∈ models ∧ m ∈ model_function_names) := by
  induction models with
  | nil => intro acc m; simp
  | cons a l ih =>
      intro acc m
      rw [List.foldl_cons, ih]
      have hk := collect_step_keys env text tl acc a
      by_cases hreg : a ∈ model_function_names <;> by_cases hmem : a ∈ acc.map Prod.fst
      · rw [hk, if_neg (by simp [hmem])]
        constructor
        · rintro (h | h)
          · exact Or.inl h
          · exact Or.inr ⟨List.mem_cons_of_mem a h.1, h.2⟩
        · rintro (h | ⟨hm, hr⟩)
          · exact Or.inl h
          · rcases List.mem_cons.mp hm with rfl | hm
            · exact Or.inl hmem
            · exact Or.inr ⟨hm, hr⟩
      · rw [hk, if_pos ⟨hreg, hmem⟩]
        simp only [List.mem_append, List.mem_singleton]
        constructor
        · rintro ((h | rfl) | h)
          · exact Or.inl h
          · exact Or.inr ⟨List.mem_cons_self _ _, hreg⟩
          · exact Or.inr ⟨List.mem_cons_of_mem a h.1, h.2⟩
        · rintro (h | ⟨hm, hr⟩)
          · exact Or.inl (Or.inl h)
          · rcases List.mem_cons.mp hm with rfl | hm
            · exact Or.inl (Or.inr rfl)
            · exact Or.inr ⟨hm, hr⟩
      · rw [hk, if_neg (by simp [hreg])]
        constructor
        · rintro (h | h)
          · exact Or.inl h
          · exact Or.inr ⟨List.mem_cons_of_mem a h.1, h.2⟩
        · rintro (h | ⟨hm, hr⟩)
          · exact Or.inl h
          · rcases List.mem_cons.mp hm with rfl | hm
            · exact absurd hr hreg
            · exact Or.inr ⟨hm, hr⟩
      · rw [hk, if_neg (by simp [hreg])]
        constructor
        · rintro (h | h)
          · exact Or.inl h
          · exact Or.inr ⟨List.mem_cons_of_mem a h.1, h.2⟩
        · rintro (h | ⟨hm, hr⟩)
          · exact Or.inl h
          · rcases List.mem_cons.mp hm with rfl | hm
            · exact absurd hr hreg
            · exact Or.inr ⟨hm, hr⟩

/-- The results fold never duplicates a key. -/
theorem collect_foldl_keys_nodup (env : ServerEnv) (text tl : String) (models : List String) :
    ∀ (acc : List (String × TranslationResult)), (acc.map Prod.fst).Nodup →
      ((models.foldl (collect_step env text tl) acc).map Prod.fst).Nodup := by
  induction models with
  | nil => intro acc h; simpa using h
  | cons a l ih =>
      intro acc h
      rw [List.foldl_cons]
      apply ih
      rw [collect_step_keys]
      split_ifs with hc
      · simp [List.nodup_append, h, hc.2]
      · exact h

/-- A registered name that is not yet a key gets appended with its adapter
result. -/
theorem collect_step_of_new (env : ServerEnv) (text tl : String)
    (acc : List (String × TranslationResult)) (a : String)
    (ha : a ∈ model_function_names) (hna : a ∉ acc.map Prod.fst) :
    ∃ v, collect_step env text tl acc a = acc ++ [(a, v)] := by
  unfold collect_step
  cases hr : run_model_function env a text tl with
  | none =>
      exfalso
      have hs := (run_model_function_isSome env a text tl).mpr ha
      rw [hr] at hs
      simp at hs
  | some call =>
      have hany : acc.any (fun p => p.1 == a) = false := by
        rw [← Bool.not_eq_true, any_key_eq]
        exact hna
      exact ⟨call.result, by simp [hany]⟩

/-- For distinct registered names that are all new, the fold adds exactly one
entry per name. -/
theorem collect_foldl_length (env : ServerEnv) (text tl : String) (models : List String) :
    ∀ (acc : List (String × TranslationResult)), models.Nodup →
      (∀ m ∈ models, m ∈ model_function_names) →
      (∀ m ∈ models, m ∉ acc.map Prod.fst) →
      (models.foldl (collect_step env text tl) acc).length = acc.length + models.length := by
  induction models with
  | nil => intro acc _ _ _; simp
  | cons a l ih =>
      intro acc hnd hreg hdis
      rw [List.foldl_cons]
      obtain ⟨v, hv⟩ := collect_step_of_new env text tl acc a
        (hreg a (List.mem_cons_self a l)) (hdis a (List.mem_cons_self a l))
      rw [hv]
      have hlen := ih (acc ++ [(a, v)]) (List.Nodup.of_cons hnd)
        (fun m hm => hreg m (List.mem_cons_of_mem a hm))
        (fun m hm => by
          simp only [List.map_append, List.mem_append, List.map_cons, List.map_nil,
            List.mem_singleton]
          rintro (h | rfl)
          · exact hdis m (List.mem_cons_of_mem a hm) h
          · exact (List.nodup_cons.mp hnd).1 hm)
      rw [hlen]
      simp
      omega

/-! Claim theorems. -/

/-- C1 counterexample: for the request `text="Hello"`, `models=["marian",
"doesnotexist"]` against a healthy environment, the results mapping has only
1 entry (not `len(models) = 2`) and contains NO entry at all for the unknown
id `"doesnotexist"` — the orchestrator silently skips unknown backend ids
instead of synthesizing a failed entry. -/
theorem C1_counterexample :
    (outcome_results (compare_custom_models env0 "Hello" "french"
        ["marian", "doesnotexist"])).length ≠ 2 ∧
    (outcome_results (compare_custom_models env0 "Hello" "french"
        ["marian", "doesnotexist"])).lookup "doesnotexist" = none ∧
    "doesnotexist" ∈ (["marian", "doesnotexist"] : List String) := by
  refine ⟨by decide, by decide, by decide⟩

/-- C1 (amended): for every comparison request with non-empty text and a
non-empty models list, the results mapping contains exactly one entry for
each distinct requested id that is a registered backend, and no entry for any
other id (unknown ids are silently dropped, with no synthetic failed entry);
every registered requested id is still submitted to the executor. -/
theorem C1_amended (env : ServerEnv) (text target_language : String)
    (models : List String) (htext : text ≠ "") (hmodels : models ≠ []) :
    ∃ r invoked,
      compare_custom_models env text target_language models = .ok r invoked ∧
      (∀ m : String, m ∈ r.results.map Prod.fst ↔
        m ∈ models ∧ m ∈ model_function_names) ∧
      (r.results.map Prod.fst).Nodup ∧
      invoked = models.filter (fun m => model_function_names.contains m) := by
  unfold compare_custom_models
  rw [if_neg htext, if_neg hmodels]
  refine ⟨_, _, rfl, ?_, ?_, rfl⟩
  · intro m
    have h := collect_foldl_keys_mem env text target_language models [] m
    simpa [custom_results] using h
  · have h := collect_foldl_keys_nodup env text target_language models [] (by simp)
    simpa [custom_results] using h

/-- C1 witness: the amended theorem evaluated at the concrete request of the
counterexample. -/
theorem C1_amended_witness :
    ∃ r invoked,
      compare_custom_models env0 "Hello" "french" ["marian", "doesnotexist"] =
        .ok r invoked ∧
      (∀ m : String, m ∈ r.results.map Prod.fst ↔
        m ∈ ["marian", "doesnotexist"] ∧ m ∈ model_function_names) ∧
      (r.results.map Prod.fst).Nodup ∧
      invoked = ["marian", "doesnotexist"].filter
        (fun m => model_function_names.contains m) :=
  C1_amended env0 "Hello" "french" ["marian", "doesnotexist"] (by decide) (by decide)

/-- C2 counterexample: for `models=["marian", "doesnotexist"]` with a healthy
marian, the reported success_rate is 1/2 (one success over `len(models)=2`),
not `count(status=="success") / len(results) = 1/1` — the denominator is the
requested list, not the results mapping. -/
theorem C2_counterexample :
    outcome_success_rate (compare_custom_models env0 "Hello" "french"
        ["marian", "doesnotexist"]) ≠
      (successCount (outcome_results (compare_custom_models env0 "Hello" "french"
          ["marian", "doesnotexist"])) : ℚ) /
        ((outcome_results (compare_custom_models env0 "Hello" "french"
          ["marian", "doesnotexist"])).length : ℚ) := by
  have h1 : outcome_success_rate (compare_custom_models env0 "Hello" "french"
      ["marian", "doesnotexist"]) = 1/2 := by
    simp [compare_custom_models, outcome_success_rate, custom_results, collect_step,
          run_model_function, translate_with_marian, env0, List.foldl]
  have h2 : successCount (outcome_results (compare_custom_models env0 "Hello" "french"
      ["marian", "doesnotexist"])) = 1 := by decide
  have h3 : (outcome_results (compare_custom_models env0 "Hello" "french"
      ["marian", "doesnotexist"])).length = 1 := by decide
  rw [h1, h2, h3]
  norm_num

/-- C2 (amended): for every valid comparison request, the reported
success_rate equals the number of successful result entries divided by the
length of the REQUESTED models list; this coincides with dividing by
`len(results)` exactly when the requested ids are distinct and all
registered, since then the results mapping has one entry per requested id. -/
theorem C2_amended (env : ServerEnv) (text target_language : String)
    (models : List String) (htext : text ≠ "") (hmodels : models ≠ []) :
    ∃ r invoked,
      compare_custom_models env text target_language models = .ok r invoked ∧
      r.success_rate = (successCount r.results : ℚ) / (models.length : ℚ) ∧
      (models.Nodup → (∀ m ∈ models, m ∈ model_function_names) →
        r.results.length = models.length) := by
  unfold compare_custom_models
  rw [if_neg htext, if_neg hmodels]
  refine ⟨_, _, rfl, ?_, ?_⟩
  · simp [successCount, List.length_map]
  · intro hnd hreg
    have h := collect_foldl_length env text target_language models [] hnd hreg (by simp)
    simpa [custom_results] using h

/-- C2 witness: the amended theorem at the concrete request of the
counterexample. -/
theorem C2_amended_witness :
    ∃ r invoked,
      compare_custom_models env0 "Hello" "french" ["marian", "doesnotexist"] =
        .ok r invoked ∧
      r.success_rate = (successCount r.results : ℚ) /
        ((["marian", "doesnotexist"] : List String).length : ℚ) ∧
      ((["marian", "doesnotexist"] : List String).Nodup →
        (∀ m ∈ (["marian", "doesnotexist"] : List String),
          m ∈ model_function_names) →
        r.results.length = (["marian", "doesnotexist"] : List String).length) :=
  C2_amended env0 "Hello" "french" ["marian", "doesnotexist"] (by decide) (by decide)

/-- C3 counterexample: `translate_with_chatgpt` does NOT capture failures
into a returned result — an underlying exception escapes the adapter
(re-raised after printing), so the claim that every listed adapter never
raises is false for the ChatGPT adapter. -/
theorem C3_counterexample :
    translate_with_chatgpt (.exn "Connection error") "Hello" "french" =
      .error "Connection error" := rfl

/-- C3 (amended): the four dict-returning adapters (`translate_with_marian`,
`translate_with_m2m100`, `translate_with_madlad`, `translate_with_google`)
never raise: every outcome yields a result that is either a clean success or
a failure with the error field set.  `translate_with_chatgpt` instead
re-raises; its exception is caught one level up by the `/translate-chatgpt`
endpoint, which converts it into a 500 failed body. -/
theorem C3_amended (env : CallOutcome) (loaded : Bool) (lat : ℚ)
    (text tl e : String) :
    capturedFailure (translate_with_marian env lat text tl).result ∧
    capturedFailure (translate_with_m2m100 loaded env lat text tl).result ∧
    capturedFailure (translate_with_madlad loaded env lat text tl).result ∧
    capturedFailure (translate_with_google env lat text tl).result ∧
    (text ≠ "" →
      translate_chatgpt_endpoint (.exn e) lat text tl =
        .serverError ⟨none, 0, "ChatGPT", "failed", some e⟩) := by
  refine ⟨?_, ?_, ?_, ?_, ?_⟩
  · cases env <;> simp [capturedFailure, translate_with_marian]
  · cases env <;> cases loaded <;>
      simp [capturedFailure, translate_with_m2m100] <;> (try split) <;> simp_all
  · cases env <;> cases loaded <;>
      simp [capturedFailure, translate_with_madlad] <;> (try split) <;> simp_all
  · cases env <;> simp [capturedFailure, translate_with_google]
  · intro h
    simp [translate_chatgpt_endpoint, translate_with_chatgpt, h]

/-- C3 witness: the endpoint-level catch evaluated at a concrete failing
ChatGPT call. -/
theorem C3_amended_witness :
    translate_chatgpt_endpoint (.exn "boom") 1 "Hello" "french" =
      .serverError ⟨none, 0, "ChatGPT", "failed", some "boom"⟩ :=
  (C3_amended (.ok "x") true 1 "Hello" "french" "boom").2.2.2.2 (by decide)

/-- C4 counterexample: when the MarianMT backend fails, the main server's
`/compare` does NOT return a 200 structured body with a synthetic note — the
unconditional metric computation evaluates `len(None)`, the raised
`TypeError` reaches the route's catch-all, and the caller gets a 500 error
body. -/
theorem C4_counterexample :
    compare_two_models (.exn "model load failed") (.ok "Bonjour") 1 1
        "Hello" "french" =
      .serverError "object of type NoneType has no len()" ∧
    (translate_with_marian (.exn "model load failed") 1 "Hello" "french").result.status
      = "failed" := by
  constructor
  · simp [compare_two_models, translate_with_marian, translate_with_google]
  · rfl

/-- C4 (amended): in the backup server's `/compare`, numeric pairwise metrics
appear only when both entries have status success; any pair involving a
failed entry gets the synthetic note `"Comparison unavailable - one or both
models failed"` in a 200 body, and only the both-backends-raised case yields
a 500 error.  The main server's `/compare`, by contrast, returns a 500 error
body whenever either backend's translation is missing. -/
theorem C4_amended :
    (∀ (envM envG : CallOutcome) (latM latG : ℚ) (text tl : String)
        (m g : BackupEntry) (pm : PairMetrics),
        compare_translations envM envG latM latG text tl = .ok m g (.metrics pm) →
        m.status = "success" ∧ g.status = "success") ∧
    (∀ (envM envG : CallOutcome) (latM latG : ℚ) (text tl : String)
        (m g : BackupEntry) (c : ComparisonField),
        compare_translations envM envG latM latG text tl = .ok m g c →
        (m.status = "failed" ∨ g.status = "failed") →
        c = .note "Comparison unavailable - one or both models failed") ∧
    (∀ (envM envG : CallOutcome) (latM latG : ℚ) (text tl : String),
        backup_is_server_error (compare_translations envM envG latM latG text tl)
          = true ↔ (∃ e1 e2, envM = .exn e1 ∧ envG = .exn e2)) ∧
    (∀ (envM envG : CallOutcome) (latM latG : ℚ) (text tl : String),
        text ≠ "" →
        ((translate_with_marian envM latM text tl).result.translation = none ∨
         (translate_with_google envG latG text tl).result.translation = none) →
        ∃ msg, compare_two_models envM envG latM latG text tl = .serverError msg) := by
  refine ⟨?_, ?_, ?_, ?_⟩
  · intro envM envG latM latG text tl m g pm h
    cases envM with
    | ok t1 =>
        cases envG with
        | ok t2 =>
            by_cases h1 : t1 = "" <;> by_cases h2 : t2 = "" <;>
              simp [compare_translations, truthyStr, h1, h2] at h
            obtain ⟨hm, hg, -⟩ := h
            rw [← hm, ← hg]
            exact ⟨rfl, rfl⟩
        | exn e2 =>
            by_cases h1 : t1 = "" <;>
              simp [compare_translations, truthyStr, h1] at h
    | exn e1 =>
        cases envG with
        | ok t2 =>
            by_cases h2 : t2 = "" <;>
              simp [compare_translations, truthyStr, h2] at h
        | exn e2 =>
            simp [compare_translations] at h
  · intro envM envG latM latG text tl m g c h hf
    cases envM with
    | ok t1 =>
        cases envG with
        | ok t2 =>
            by_cases h1 : t1 = "" <;> by_cases h2 : t2 = "" <;>
              simp [compare_translations, truthyStr, h1, h2] at h
            · simp_all
            · simp_all
            · simp_all
            · obtain ⟨hm, hg, -⟩ := h
              rw [← hm, ← hg] at hf
              simp at hf
        | exn e2 =>
            by_cases h1 : t1 = "" <;>
              simp [compare_translations, truthyStr, h1] at h <;> simp_all
    | exn e1 =>
        cases envG with
        | ok t2 =>
            by_cases h2 : t2 = "" <;>
              simp [compare_translations, truthyStr, h2] at h <;> simp_all
        | exn e2 =>
            simp [compare_translations] at h
  · intro envM envG latM latG text tl
    cases envM <;> cases envG <;>
      simp [compare_translations, backup_is_server_error]
  · intro envM envG latM latG text tl htext h
    cases envM with
    | ok t1 =>
        cases envG with
        | ok t2 => simp [translate_with_marian, translate_with_google] at h
        | exn e2 =>
            exact ⟨"object of type NoneType has no len()",
              by simp [compare_two_models, translate_with_marian,
                       translate_with_google, htext]⟩
    | exn e1 =>
        cases envG <;>
          exact ⟨"object of type NoneType has no len()",
            by simp [compare_two_models, translate_with_marian,
                     translate_with_google, htext]⟩

/-- C4 witness: the main-server 500 conclusion at a concrete failing marian
call. -/
theorem C4_amended_witness :
    ∃ msg, compare_two_models (.exn "down") (.ok "Bonjour") 1 1 "Hello" "french" =
      .serverError msg :=
  C4_amended.2.2.2 (.exn "down") (.ok "Bonjour") 1 1 "Hello" "french"
    (by decide) (Or.inl rfl)

/-- C5 counterexample: two successful translations differing only in letter
case ("Bonjour" vs "bonjour") are reported as NOT the same by the main
server's `/compare` — its `are_same` is raw equality of the stored
translations, with no trimming or lower-casing — even though the two strings
are equal after strip + lower normalization. -/
theorem C5_counterexample :
    two_are_same (compare_two_models (.ok "Bonjour") (.ok "bonjour") 1 1
        "Hello" "french") = some false ∧
    pyStrip (pyLower "Bonjour") = pyStrip (pyLower "bonjour") ∧
    (compare_two_models (.ok "Bonjour") (.ok "bonjour") 1 1 "Hello" "french" ≠
      .serverError "object of type NoneType has no len()") := by
  refine ⟨?_, by decide, ?_⟩
  · simp [compare_two_models, translate_with_marian, translate_with_google,
          two_are_same]
  · simp [compare_two_models, translate_with_marian, translate_with_google]

/-- C5 (amended): the BACKUP comparators (the `comparison` block of
`compare_translations` and the `pairwise` entries of back-up
`compare_three_models`, both computed by `pairwise_comparison`) report
`are_same` as equality after lower-casing and stripping surrounding
whitespace; the main server's `/compare`, however, reports `are_same` as raw
string equality of the two successful translations, without any
normalization. -/
theorem C5_amended :
    (∀ (t1 t2 : String) (l1 l2 : ℚ),
        ((pairwise_comparison t1 t2 l1 l2).are_same = true ↔
          pyStrip (pyLower t1) = pyStrip (pyLower t2))) ∧
    (∀ (mt gt : String) (lm lg : ℚ) (text tl : String), text ≠ "" →
        two_are_same (compare_two_models (.ok mt) (.ok gt) lm lg text tl) =
          some (mt == gt)) := by
  constructor
  · intro t1 t2 l1 l2
    simp [pairwise_comparison]
  · intro mt gt lm lg text tl h
    simp [compare_two_models, translate_with_marian, translate_with_google,
          two_are_same, h]

/-- C5 witness: the main-server raw-equality conclusion at concrete
translations. -/
theorem C5_amended_witness :
    two_are_same (compare_two_models (.ok "Salut") (.ok "salut") 1 2
        "Hello" "french") = some ("Salut" == "salut") :=
  C5_amended.2 "Salut" "salut" 1 2 "Hello" "french" (by decide)

/-- C6 counterexample: for two successful results with translations of
lengths 3 and 5, the main server's `/compare` metric computation reports
`length_diff = 2` for BOTH argument orders (it takes an absolute value), so
the swapped comparison is not the sign-inverse required by the claim. -/
theorem C6_counterexample :
    two_length_diff (compare_two_models (.ok "abc") (.ok "fghij") 1 2
        "Hello" "french") = some 2 ∧
    two_length_diff (compare_two_models (.ok "fghij") (.ok "abc") 2 1
        "Hello" "french") = some 2 ∧
    (2 : ℤ) ≠ -(2 : ℤ) := by
  refine ⟨?_, ?_, by decide⟩
  · simp [compare_two_models, translate_with_marian, translate_with_google,
          two_length_diff]
    decide
  · simp [compare_two_models, translate_with_marian, translate_with_google,
          two_length_diff]
    decide

/-- C6 (amended): the backup pairwise comparator is fully order-consistent —
`are_same` is symmetric and `length_diff` (`len(b) - len(a)`) and
`speed_diff` (rounded `lat(b) - lat(a)`) are exact sign-inverses under
swapping.  In the main server's `/compare` metrics, `are_same` is symmetric
and `speed_diff` is a sign-inverse, but `length_diff` is an absolute value
and therefore UNCHANGED (not negated) under swapping. -/
theorem C6_amended :
    (∀ (t1 t2 : String) (l1 l2 : ℚ),
        (pairwise_comparison t2 t1 l2 l1).are_same =
          (pairwise_comparison t1 t2 l1 l2).are_same ∧
        (pairwise_comparison t2 t1 l2 l1).length_diff =
          -(pairwise_comparison t1 t2 l1 l2).length_diff ∧
        (pairwise_comparison t2 t1 l2 l1).speed_diff =
          -(pairwise_comparison t1 t2 l1 l2).speed_diff) ∧
    (∀ (mt gt : String) (lm lg : ℚ) (text tl : String), text ≠ "" →
        two_are_same (compare_two_models (.ok gt) (.ok mt) lg lm text tl) =
          two_are_same (compare_two_models (.ok mt) (.ok gt) lm lg text tl) ∧
        two_speed_diff (compare_two_models (.ok gt) (.ok mt) lg lm text tl) =
          (two_speed_diff (compare_two_models (.ok mt) (.ok gt) lm lg text tl)).map
            (fun x => -x) ∧
        two_length_diff (compare_two_models (.ok gt) (.ok mt) lg lm text tl) =
          two_length_diff (compare_two_models (.ok mt) (.ok gt) lm lg text tl)) := by
  constructor
  · intro t1 t2 l1 l2
    refine ⟨?_, ?_, ?_⟩
    · simp [pairwise_comparison]
      exact eq_comm
    · simp [pairwise_comparison]
    · simp only [pairwise_comparison]
      rw [show l1 - l2 = -(l2 - l1) by ring, round3_neg]
  · intro mt gt lm lg text tl h
    refine ⟨?_, ?_, ?_⟩
    · simp [compare_two_models, translate_with_marian, translate_with_google,
            two_are_same, h]
      exact eq_comm
    · simp [compare_two_models, translate_with_marian, translate_with_google,
            two_speed_diff, h]
    · simp [compare_two_models, translate_with_marian, translate_with_google,
            two_length_diff, h]
      omega

/-- C6 witness: the main-server swap facts at concrete inputs. -/
theorem C6_amended_witness :
    two_are_same (compare_two_models (.ok "fghij") (.ok "abc") 2 1
        "Hello" "french") =
      two_are_same (compare_two_models (.ok "abc") (.ok "fghij") 1 2
        "Hello" "french") :=
  (C6_amended.2 "abc" "fghij" 1 2 "Hello" "french" (by decide)).1

/-- C7: requests with empty text are rejected with a 400 validation error
before any backend is invoked (for `/compare-custom` and `/translate`), and
`/compare-custom` likewise rejects an empty models list with zero backend
invocations. -/
theorem C7_validation_rejects :
    (∀ (env : ServerEnv) (tl : String) (models : List String),
        compare_custom_models env "" tl models =
          .validationError "No text provided" []) ∧
    (∀ (env : ServerEnv) (text tl : String), text ≠ "" →
        compare_custom_models env text tl [] =
          .validationError "No models specified" []) ∧
    (∀ (env : ServerEnv) (tl model : String),
        translate_endpoint env "" tl model =
          .validationError ⟨none, 0, model, "failed", some "No text provided"⟩) := by
  refine ⟨?_, ?_, ?_⟩
  · intro env tl models
    simp [compare_custom_models]
  · intro env text tl h
    simp [compare_custom_models, h]
  · intro env tl model
    simp [translate_endpoint]

/-- C7 witness: empty models list at a concrete request. -/
theorem C7_witness :
    compare_custom_models env0 "Hello" "french" [] =
      .validationError "No models specified" [] :=
  C7_validation_rejects.2.1 env0 "Hello" "french" (by decide)

/-- C8: per-adapter unmapped-language policy.  With the model available,
`translate_with_m2m100` and `translate_with_madlad` fail fast on a language
missing from their tables, returning a failed result with error
`"Unsupported language: <target_language>"` and never reaching the model
invocation; `get_marian_model_name` instead falls back to the default
`opus-mt-en-mul` model and the MarianMT adapter proceeds normally; the backup
server's `get_model_name` falls back to the French model. -/
theorem C8_unsupported_language_policy :
    (∀ (env : CallOutcome) (lat : ℚ) (text tl : String),
        m2m100_lang_codes.lookup (pyLower tl) = none →
        translate_with_m2m100 true env lat text tl =
          ⟨⟨none, lat, "M2M-100", "failed",
            some ("Unsupported language: " ++ tl)⟩, false⟩) ∧
    (∀ (env : CallOutcome) (lat : ℚ) (text tl : String),
        madlad_lang_codes.lookup (pyLower tl) = none →
        translate_with_madlad true env lat text tl =
          ⟨⟨none, lat, "MADLAD-400", "failed",
            some ("Unsupported language: " ++ tl)⟩, false⟩) ∧
    (∀ tl : String, marian_models_table.lookup (pyLower tl) = none →
        get_marian_model_name tl = "Helsinki-NLP/opus-mt-en-mul") ∧
    (∀ (lat : ℚ) (text tl t : String),
        (translate_with_marian (.ok t) lat text tl).result.status = "success") ∧
    (∀ tl : String, backup_language_map.lookup (pyStrip (pyLower tl)) = none →
        get_model_name tl = "Helsinki-NLP/opus-mt-en-fr") := by
  refine ⟨?_, ?_, ?_, ?_, ?_⟩
  · intro env lat text tl h
    simp [translate_with_m2m100, h]
  · intro env lat text tl h
    simp [translate_with_madlad, h]
  · intro tl h
    simp [get_marian_model_name, h]
  · intro lat text tl t
    simp [translate_with_marian]
  · intro tl h
    simp [get_model_name, h]

/-- C8 witness: the M2M-100 fail-fast at the unmapped language "klingon". -/
theorem C8_witness :
    translate_with_m2m100 true (.ok "x") 1 "Hello" "klingon" =
      ⟨⟨none, 1, "M2M-100", "failed",
        some ("Unsupported language: " ++ "klingon")⟩, false⟩ :=
  C8_unsupported_language_policy.1 (.ok "x") 1 "Hello" "klingon" (by decide)

/-- C9: every result produced by the four dict-returning adapters satisfies
the status/translation pairing invariant — status is "success" exactly when
the translation field is non-None. -/
theorem C9_status_translation_invariant (env : CallOutcome) (loaded : Bool)
    (lat : ℚ) (text tl : String) :
    statusTransInv (translate_with_marian env lat text tl).result ∧
    statusTransInv (translate_with_m2m100 loaded env lat text tl).result ∧
    statusTransInv (translate_with_madlad loaded env lat text tl).result ∧
    statusTransInv (translate_with_google env lat text tl).result := by
  cases env <;> cases loaded <;>
    simp [statusTransInv, translate_with_marian, translate_with_m2m100,
          translate_with_madlad, translate_with_google] <;>
    constructor <;> (try split) <;> simp_all

/-- C10: the main `/translate` endpoint routes `model == "google"` to the
Google adapter and every other model string — unknown identifiers included —
to the MarianMT adapter, always answering with that adapter's result and
never with an unknown-model error. -/
theorem C10_translate_routing (env : ServerEnv)
    (text target_language model : String) (htext : text ≠ "") :
    (model = "google" →
      endpoint_called (translate_endpoint env text target_language model) =
        some Backend.google ∧
      endpoint_result (translate_endpoint env text target_language model) =
        (translate_with_google env.google env.googleLat text target_language).result) ∧
    (model ≠ "google" →
      endpoint_called (translate_endpoint env text target_language model) =
        some Backend.marian ∧
      endpoint_result (translate_endpoint env text target_language model) =
        (translate_with_marian env.marian env.marianLat text target_language).result) := by
  constructor
  · intro h
    subst h
    by_cases hs : (translate_with_google env.google env.googleLat text
        target_language).result.status = "success" <;>
      simp [translate_endpoint, htext, hs, endpoint_called, endpoint_result]
  · intro h
    by_cases hs : (translate_with_marian env.marian env.marianLat text
        target_language).result.status = "success" <;>
      simp [translate_endpoint, htext, h, hs, endpoint_called, endpoint_result]

/-- C10 witness: the unknown model id "doesnotexist" routes to MarianMT. -/
theorem C10_witness :
    endpoint_called (translate_endpoint env0 "Hello" "french" "doesnotexist") =
      some Backend.marian ∧
    endpoint_result (translate_endpoint env0 "Hello" "french" "doesnotexist") =
      (translate_with_marian env0.marian env0.marianLat "Hello" "french").result :=
  (C10_translate_routing env0 "Hello" "french" "doesnotexist" (by decide)).2 (by decide)

end LiveAudio
